import Mathlib

/-
Shallow embedding of pfirsich/timetrackd (src/main.rs), a desktop activity
sampler: five external command probes are assembled into a `Sample`, and a
change-detection loop emits a line whenever the observed state changes.

External effects are modelled as explicit data:
  * the result of spawning one child process and capturing its stdout is a
    `RawOutput` value (spawn failure / UTF-8 decode failure / captured text
    plus the exit code, which the code never reads);
  * one tick's five probe invocations are a `ProbeEnv` record; the process
    name probe is a function of the textual pid argument that `get_sample`
    passes to it;
  * `get_sample` additionally returns the list of probes it actually
    invoked, in order, so that short-circuiting on failure is observable;
  * stdout / stderr of the loop body are lists of emitted lines.
-/

namespace Timetrackd

/-- Model of `struct Sample`: a snapshot of desktop activity state.
`pid` is the parsed u32 (parsing enforces the `< 2^32` bound). -/
structure Sample where
  window_title : String
  pid : Nat
  process_name : String
  screensaver_active : Bool
  idle : Bool
  deriving DecidableEq

/-- Model of `std::num::ParseIntError`'s kind for unsigned parses. -/
inductive ParseIntErrorKind where
  | empty
  | invalidDigit
  | posOverflow
  deriving DecidableEq

/-- Model of `enum SampleError` (`Io`, `FromUtf8`, `ParseInt`). The payloads
of the first two are abstracted to their debug text. -/
inductive SampleError where
  | ioError (detail : String)
  | fromUtf8Error (detail : String)
  | parseIntError (kind : ParseIntErrorKind)
  deriving DecidableEq

/-- Model of spawning a child process via `Command::output()` and decoding
its stdout with `String::from_utf8`: either the spawn itself fails
(`io::Error`), the captured bytes are not valid UTF-8, or text is captured
together with the child's exit code (which the code never inspects). -/
inductive RawOutput where
  | spawnFailure (detail : String)
  | decodeFailure (detail : String)
  | captured (stdout : String) (exitCode : Int)
  deriving DecidableEq

/-- Model of Rust's `str::trim`: drop whitespace from both ends. -/
def trimStr (s : String) : String :=
  String.mk (List.reverse (List.dropWhile Char.isWhitespace
    (List.reverse (List.dropWhile Char.isWhitespace s.data))))

/-- Model of `get_command_output`: propagate a spawn failure as
`SampleError::Io`, a decode failure as `SampleError::FromUtf8`, and
otherwise return the captured text trimmed. The exit code is ignored. -/
def get_command_output (raw : RawOutput) : Except SampleError String :=
  match raw with
  | .spawnFailure d => .error (.ioError d)
  | .decodeFailure d => .error (.fromUtf8Error d)
  | .captured s _ => .ok (trimStr s)

/-- Digit-accumulation loop of Rust's unsigned `from_str_radix` (radix 10):
left to right, a non-digit char is `InvalidDigit`, exceeding `limit` is
`PosOverflow`. -/
def parseDigitsLoop (limit : Nat) : List Char → Nat → Except ParseIntErrorKind Nat
  | [], acc => .ok acc
  | c :: rest, acc =>
    if c.isDigit then
      if acc * 10 + (c.toNat - 48) > limit then .error .posOverflow
      else parseDigitsLoop limit rest (acc * 10 + (c.toNat - 48))
    else .error .invalidDigit

/-- Model of Rust's `str::parse` for an unsigned integer type with maximum
value `limit`: an optional leading plus sign, then one or more decimal
digits; empty input (after the sign) is a distinct error kind. -/
def rustParseUnsigned (limit : Nat) (s : String) : Except ParseIntErrorKind Nat :=
  let ds := match s.data with
    | '+' :: rest => rest
    | cs => cs
  if ds.isEmpty then .error .empty
  else parseDigitsLoop limit ds 0

/-- `pid_str.parse::<u32>()`. -/
def parseU32 (s : String) : Except ParseIntErrorKind Nat :=
  rustParseUnsigned 4294967295 s

/-- `idle_text.parse::<u128>()`. -/
def parseU128 (s : String) : Except ParseIntErrorKind Nat :=
  rustParseUnsigned (2 ^ 128 - 1) s

/-- Substring containment on char lists: some suffix of the haystack starts
with the needle. -/
def listIsPrefix : List Char → List Char → Bool
  | [], _ => true
  | _ :: _, [] => false
  | a :: as, b :: bs => a = b && listIsPrefix as bs

/-- Model of Rust's `str::contains(needle)` (substring search). -/
def listContainsSub (needle : List Char) : List Char → Bool
  | [] => listIsPrefix needle []
  | c :: rest => listIsPrefix needle (c :: rest) || listContainsSub needle rest

/-- `haystack.contains(needle)` on strings. -/
def containsSubstr (hay needle : String) : Bool :=
  listContainsSub needle.data hay.data

/-- `Duration::from_secs(i).as_millis()`. -/
def intervalMillis (interval_secs : Nat) : Nat := interval_secs * 1000

/-- One probe invocation, labelled by which external command it is; the
process-name probe records the textual pid argument handed to `ps -p`. -/
inductive ProbeCall where
  | windowTitle
  | windowPid
  | processName (pidArg : String)
  | screensaver
  | xprintidle
  deriving DecidableEq

/-- The five external command invocations available during one tick.
`processName` is a function of the textual pid argument passed to it. -/
structure ProbeEnv where
  windowTitle : RawOutput
  windowPid : RawOutput
  processName : String → RawOutput
  screensaver : RawOutput
  xprintidle : RawOutput

/-- Model of `get_sample`: probe title, pid, process name (passing the
textual pid), screensaver and idle time in that order; the first failure
aborts with that step's error. Also returns the trace of probes invoked. -/
def get_sample (env : ProbeEnv) (interval_secs : Nat) :
    Except SampleError Sample × List ProbeCall :=
  match get_command_output env.windowTitle with
  | .error e => (.error e, [ .windowTitle])
  | .ok window_title =>
    match get_command_output env.windowPid with
    | .error e => (.error e, [ .windowTitle, .windowPid])
    | .ok pid_str =>
      match parseU32 pid_str with
      | .error k => (.error (.parseIntError k), [ .windowTitle, .windowPid])
      | .ok pid =>
        match get_command_output (env.processName pid_str) with
        | .error e =>
          (.error e, [ .windowTitle, .windowPid, .processName pid_str])
        | .ok process_name =>
          match get_command_output env.screensaver with
          | .error e =>
            (.error e,
             [ .windowTitle, .windowPid, .processName pid_str, .screensaver])
          | .ok screensaver_text =>
            match get_command_output env.xprintidle with
            | .error e =>
              (.error e,
               [ .windowTitle, .windowPid, .processName pid_str, .screensaver,
                 .xprintidle])
            | .ok idle_str =>
              match parseU128 idle_str with
              | .error k =>
                (.error (.parseIntError k),
                 [ .windowTitle, .windowPid, .processName pid_str, .screensaver,
                   .xprintidle])
              | .ok idle_time =>
                (.ok { window_title := window_title
                       pid := pid
                       process_name := process_name
                       screensaver_active :=
                         !(containsSubstr screensaver_text "inactive")
                       idle := decide (idle_time > intervalMillis interval_secs) },
                 [ .windowTitle, .windowPid, .processName pid_str, .screensaver,
                   .xprintidle])

/-- Debug rendering of a `ParseIntError`, as `{:?}` prints it. -/
def parseIntErrorKindDebug : ParseIntErrorKind → String
  | .empty => "ParseIntError \x7b kind: Empty \x7d"
  | .invalidDigit => "ParseIntError \x7b kind: InvalidDigit \x7d"
  | .posOverflow => "ParseIntError \x7b kind: PosOverflow \x7d"

/-- Debug rendering of a `SampleError`, as `{:?}` prints it: the variant
name wrapping the payload's debug text. -/
def sampleErrorDebug : SampleError → String
  | .ioError d => "Io(" ++ d ++ ")"
  | .fromUtf8Error d => "FromUtf8(" ++ d ++ ")"
  | .parseIntError k => "ParseInt(" ++ parseIntErrorKindDebug k ++ ")"

/-- The line printed for a changed sample: `screensaver` while the
screensaver is active, otherwise the `print!` text plus the `println!`
suffix (` (idle)` or nothing). -/
def formatSample (s : Sample) : String :=
  if s.screensaver_active then "screensaver"
  else
    "\x27" ++ s.window_title ++ "\x27 ([" ++ toString s.pid ++ "] "
      ++ s.process_name ++ ")"
      ++ (if s.idle then " (idle)" else "")

/-- Result of one loop iteration: the new `last_sample` slot and the lines
written to stdout and stderr during that iteration. -/
structure TickResult where
  slot : Option Sample
  out : List String
  errLog : List String
  deriving DecidableEq

/-- Body of the `loop` in `main`, given the tick's `get_sample` result:
on success, emit the formatted line when the sample differs from the slot
and store the sample; on failure, log the error and clear the slot. -/
def step (last : Option Sample) (res : Except SampleError Sample) : TickResult :=
  match res with
  | .ok sample =>
    if last ≠ some sample then
      { slot := some sample, out := [ formatSample sample], errLog := [] }
    else
      { slot := last, out := [], errLog := [] }
  | .error e =>
    { slot := none, out := [],
      errLog := [ "Error fetching data: " ++ sampleErrorDebug e] }

/-- Iterate `step` over a list of per-tick `get_sample` results, collecting
all stdout and stderr lines. -/
def run (last : Option Sample) : List (Except SampleError Sample) → TickResult
  | [] => { slot := last, out := [], errLog := [] }
  | r :: rest =>
    let t := step last r
    let u := run t.slot rest
    { slot := u.slot, out := t.out ++ u.out, errLog := t.errLog ++ u.errLog }

/-- Model of `enum DatabaseType`. -/
inductive DatabaseType where
  | sqlite
  deriving DecidableEq

/-- Model of `struct Config`; paths are modelled as strings. -/
structure Config where
  database_path : String
  database_type : DatabaseType
  sample_interval : Nat
  deriving DecidableEq

/-- Model of `enum LoadConfigError`. -/
inductive LoadConfigError where
  | ioError (detail : String)
  | configDirError
  | parseError (msg : String)
  | tomlError (detail : String)
  deriving DecidableEq

/-- Model of `toml::Value`: the variants `parse_u64` / `parse_path` /
`parse_database_type` distinguish. Only `integer` and `str` carry data the
code reads; the other variants are uniformly "not an integer, not a
string". -/
inductive TomlValue where
  | integer (i : Int)
  | str (s : String)
  | float
  | boolean (b : Bool)
  | datetime
  | array
  | table
  deriving DecidableEq

/-- `PathBuf::join` with a relative component: append with a separator. -/
def pathJoin (a b : String) : String := a ++ "/" ++ b

/-- Model of `Config::default()`, given the home directory returned by
`dirs::home_dir()` (the code panics when there is none, handled in
`load_config`). -/
def Config.defaultFor (home : String) : Config :=
  { database_path := pathJoin home ".timetrackd.db"
    database_type := DatabaseType.sqlite
    sample_interval := 5 }

/-- Model of `parse_u64`: a non-integer or negative value is rejected,
otherwise the integer is returned as an unsigned value. -/
def parse_u64 (value : TomlValue) : Option Nat :=
  match value with
  | .integer i => if i < 0 then none else some i.toNat
  | _ => none

/-- Model of `parse_path`. -/
def parse_path (value : TomlValue) : Option String :=
  match value with
  | .str s => some s
  | _ => none

/-- Model of `parse_database_type`. -/
def parse_database_type (value : TomlValue) : Option DatabaseType :=
  match value with
  | .str s => if s = "sqlite" then some DatabaseType.sqlite else none
  | _ => none

/-- `toml::Value::get` on a parsed top-level table. -/
def tomlGet (t : List (String × TomlValue)) (key : String) : Option TomlValue :=
  match t with
  | [] => none
  | (k, v) :: rest => if k = key then some v else tomlGet rest key

/-- State of the file at `<config_dir>/timetrackd.toml`: absent
(`is_file()` false), unreadable (`fs::read_to_string` error), malformed
TOML (`toml::from_str` error), or a parsed top-level table. -/
inductive FileState where
  | absent
  | readFailure (detail : String)
  | malformed (detail : String)
  | parsed (t : List (String × TomlValue))

/-- The environment `load_config` consults: `dirs::home_dir()`,
`dirs::config_dir()`, and the config file's state. -/
structure LoadEnv where
  homeDir : Option String
  configDir : Option String
  file : FileState

/-- The `sample_interval` block of `load_config`: when the key is present
it must pass `parse_u64` or loading fails with the `ParseError`. -/
def applySampleInterval (t : List (String × TomlValue)) (c : Config) :
    Except LoadConfigError Config :=
  match tomlGet t "sample_interval" with
  | none => .ok c
  | some v =>
    match parse_u64 v with
    | some n => .ok { c with sample_interval := n }
    | none => .error (.parseError "sample_interval has to be a positive integer")

/-- The `database_path` block of `load_config`. -/
def applyDatabasePath (t : List (String × TomlValue)) (c : Config) :
    Except LoadConfigError Config :=
  match tomlGet t "database_path" with
  | none => .ok c
  | some v =>
    match parse_path v with
    | some p => .ok { c with database_path := p }
    | none => .error (.parseError "database_path must be a filesystem path")

/-- The `database_type` block of `load_config`. -/
def applyDatabaseType (t : List (String × TomlValue)) (c : Config) :
    Except LoadConfigError Config :=
  match tomlGet t "database_type" with
  | none => .ok c
  | some v =>
    match parse_database_type v with
    | some ty => .ok { c with database_type := ty }
    | none => .error (.parseError "database_type must be \x27sqlite\x27")

/-- Model of `load_config`: resolve the config dir (error when absent),
build the default config (`none` models the panic on a missing home
directory), then — when the config file exists — read it, parse it and
apply the three optional fields in order. The second component is the list
of stderr lines: a missing file is only warned about. -/
def load_config (env : LoadEnv) :
    Option (Except LoadConfigError Config × List String) :=
  match env.configDir with
  | none => some (.error .configDirError, [])
  | some cdir =>
    match env.homeDir with
    | none => none
    | some home =>
      let config_path := pathJoin cdir "timetrackd.toml"
      let c0 := Config.defaultFor home
      match env.file with
      | .absent =>
        some (.ok c0,
          [ "Could not load config file \x27" ++ config_path ++ "\x27"])
      | .readFailure d => some (.error (.ioError d), [])
      | .malformed d => some (.error (.tomlError d), [])
      | .parsed t =>
        match applySampleInterval t c0 with
        | .error e => some (.error e, [])
        | .ok c1 =>
          match applyDatabasePath t c1 with
          | .error e => some (.error e, [])
          | .ok c2 =>
            match applyDatabaseType t c2 with
            | .error e => some (.error e, [])
            | .ok c3 => some (.ok c3, [])

/-- A probe environment in which every command succeeds (exit code 0) with
the given raw stdout texts; the process-name probe ignores its argument. -/
def mkOkEnv (title pidRaw name ssRaw idleRaw : String) : ProbeEnv :=
  { windowTitle := RawOutput.captured title 0
    windowPid := RawOutput.captured pidRaw 0
    processName := fun _ => RawOutput.captured name 0
    screensaver := RawOutput.captured ssRaw 0
    xprintidle := RawOutput.captured idleRaw 0 }

/-- A concrete sample used to instantiate hypothesised theorems. -/
def sampleA : Sample :=
  { window_title := "Terminal", pid := 4821, process_name := "bash"
    screensaver_active := false, idle := false }

/-- A second concrete sample, differing from `sampleA` in `idle` only. -/
def sampleB : Sample :=
  { window_title := "Terminal", pid := 4821, process_name := "bash"
    screensaver_active := false, idle := true }

/-- A probe environment whose pid probe answers with padded text and whose
process-name probe fails exactly when handed the trimmed textual pid
`"007"` — the re-stringified parsed pid would be `"7"`. -/
def envPidText : ProbeEnv :=
  { windowTitle := RawOutput.captured "Title" 0
    windowPid := RawOutput.captured " 007 " 0
    processName := fun s =>
      if s = "007" then RawOutput.spawnFailure "boom"
      else RawOutput.captured "wrong" 0
    screensaver := RawOutput.captured "irrelevant" 0
    xprintidle := RawOutput.captured "0" 0 }

/-- A load environment whose config file sets `sample_interval = 0`. -/
def envIntervalZero : LoadEnv :=
  { homeDir := some "/home/u"
    configDir := some "/home/u/.config"
    file := FileState.parsed [ ("sample_interval", TomlValue.integer 0)] }

/-- A load environment whose config file sets `sample_interval = -3`. -/
def envIntervalNeg : LoadEnv :=
  { homeDir := some "/home/u"
    configDir := some "/home/u/.config"
    file := FileState.parsed [ ("sample_interval", TomlValue.integer (-3))] }

/-- Characterisation of `get_sample` on an all-success environment, given
that the trimmed pid and idle texts parse. -/
theorem get_sample_mkOkEnv (title pidRaw name ssRaw idleRaw : String)
    (i pid d : Nat)
    (hp : parseU32 (trimStr pidRaw) = .ok pid)
    (hd : parseU128 (trimStr idleRaw) = .ok d) :
    get_sample (mkOkEnv title pidRaw name ssRaw idleRaw) i =
      (.ok { window_title := trimStr title
             pid := pid
             process_name := trimStr name
             screensaver_active := !(containsSubstr (trimStr ssRaw) "inactive")
             idle := decide (d > intervalMillis i) },
       [ .windowTitle, .windowPid, .processName (trimStr pidRaw), .screensaver,
         .xprintidle]) := by
  simp [get_sample, mkOkEnv, get_command_output, hp, hd]

/-- C1: from an empty slot, running the loop body on two successful samples
`a` then `b` with `a ≠ b` emits exactly two lines (one per sample), while
running it on `a` then `a` emits exactly one line. -/
theorem claim1_pair_of_ticks_emission (a b : Sample) (hab : a ≠ b) :
    (run none [ .ok a, .ok b]).out = [ formatSample a, formatSample b] ∧
    (run none [ .ok a, .ok a]).out = [ formatSample a] ∧
    (run none [ .ok a, .ok b]).out.length = 2 ∧
    (run none [ .ok a, .ok a]).out.length = 1 := by
  simp [run, step, hab]

/-- Witness for C1 at the concrete samples `sampleA` and `sampleB`. -/
theorem claim1_pair_of_ticks_emission_inst :
    (run none [ .ok sampleA, .ok sampleB]).out
        = [ formatSample sampleA, formatSample sampleB] ∧
    (run none [ .ok sampleA, .ok sampleA]).out = [ formatSample sampleA] ∧
    (run none [ .ok sampleA, .ok sampleB]).out.length = 2 ∧
    (run none [ .ok sampleA, .ok sampleA]).out.length = 1 :=
  claim1_pair_of_ticks_emission sampleA sampleB (by decide)

/-- C2: a tick whose `get_sample` fails writes exactly one diagnostic line
(the error's kind and detail) to stderr, emits nothing, and clears the
slot; the next successful sample is then always emitted, whatever it is. -/
theorem claim2_failure_resets_slot (last : Option Sample) (e : SampleError)
    (s : Sample) :
    (step last (.error e)).errLog
        = [ "Error fetching data: " ++ sampleErrorDebug e] ∧
    (step last (.error e)).out = [] ∧
    (step last (.error e)).slot = none ∧
    (step (step last (.error e)).slot (.ok s)).out = [ formatSample s] := by
  simp [step]

/-- C4: every sample the loop reports as a change produces exactly one
line: the literal `screensaver` when `screensaver_active` holds, otherwise
the quoted title with pid and process name, with ` (idle)` appended exactly
when `idle` holds. -/
theorem claim4_emitted_line_format (last : Option Sample) (s : Sample)
    (h : last ≠ some s) :
    ∃ line, (step last (.ok s)).out = [ line] ∧
      (s.screensaver_active = true → line = "screensaver") ∧
      (s.screensaver_active = false →
        line = "\x27" ++ s.window_title ++ "\x27 ([" ++ toString s.pid ++ "] "
          ++ s.process_name ++ ")"
          ++ (if s.idle then " (idle)" else "")) := by
  refine ⟨formatSample s, ?_, ?_, ?_⟩
  · simp [step, h]
  · intro hs
    simp [formatSample, hs]
  · intro hs
    simp [formatSample, hs]

/-- Witness for C4 at the concrete sample `sampleA` from an empty slot. -/
theorem claim4_emitted_line_format_inst :
    ∃ line, (step none (.ok sampleA)).out = [ line] ∧
      (sampleA.screensaver_active = true → line = "screensaver") ∧
      (sampleA.screensaver_active = false →
        line = "\x27" ++ sampleA.window_title ++ "\x27 (["
          ++ toString sampleA.pid ++ "] " ++ sampleA.process_name ++ ")"
          ++ (if sampleA.idle then " (idle)" else "")) :=
  claim4_emitted_line_format none sampleA (by decide)

/-- C7: after a successful tick with sample `s`, the slot holds `s`,
whether or not a line was emitted. -/
theorem claim7_slot_tracks_latest (last : Option Sample) (s : Sample) :
    (step last (.ok s)).slot = some s := by
  by_cases h : last = some s
  · simp [step, h]
  · simp [step, h]

/-- C8: `get_command_output` returns the captured stdout trimmed, fails
exactly on spawn (I/O) failure or UTF-8 decoding failure, and never
inspects the exit code. -/
theorem claim8_command_output_contract (d s : String) (c c2 : Int) :
    get_command_output (RawOutput.spawnFailure d)
        = .error (SampleError.ioError d) ∧
    get_command_output (RawOutput.decodeFailure d)
        = .error (SampleError.fromUtf8Error d) ∧
    get_command_output (RawOutput.captured s c) = .ok (trimStr s) ∧
    (∀ e, get_command_output (RawOutput.captured s c) ≠ .error e) ∧
    get_command_output (RawOutput.captured s c)
        = get_command_output (RawOutput.captured s c2) := by
  simp [get_command_output]

/-- C3: when all probes succeed and the idle text parses to `d`
milliseconds, the derived `idle` field holds exactly when `d` strictly
exceeds the configured interval `i` seconds expressed in milliseconds;
`d = i * 1000` yields `idle = false`. -/
theorem claim3_idle_strict_threshold (title pidRaw name ssRaw idleRaw : String)
    (i pid d : Nat)
    (hp : parseU32 (trimStr pidRaw) = .ok pid)
    (hd : parseU128 (trimStr idleRaw) = .ok d) :
    ∃ s tr,
      get_sample (mkOkEnv title pidRaw name ssRaw idleRaw) i = (.ok s, tr) ∧
      (s.idle = true ↔ d > i * 1000) ∧
      (d = i * 1000 → s.idle = false) := by
  refine ⟨_, _,
    get_sample_mkOkEnv title pidRaw name ssRaw idleRaw i pid d hp hd, ?_, ?_⟩
  · simp [intervalMillis]
  · intro hdi
    simp [intervalMillis, hdi]

/-- Witness for C3 at the boundary input: idle text `5000` ms against a
5-second interval gives `idle = false`. -/
theorem claim3_idle_strict_threshold_inst :
    ∃ s tr,
      get_sample (mkOkEnv "Terminal" "4821" "bash" "x" "5000") 5 = (.ok s, tr) ∧
      (s.idle = true ↔ 5000 > 5 * 1000) ∧
      (5000 = 5 * 1000 → s.idle = false) :=
  claim3_idle_strict_threshold "Terminal" "4821" "bash" "x" "5000"
    5 4821 5000 rfl rfl

/-- C5: when all probes succeed, `screensaver_active` is false exactly when
the text returned by the screensaver probe contains the substring
`inactive`; any other text, the empty string included, yields
`screensaver_active = true`. -/
theorem claim5_screensaver_substring (title pidRaw name ssRaw idleRaw : String)
    (i pid d : Nat)
    (hp : parseU32 (trimStr pidRaw) = .ok pid)
    (hd : parseU128 (trimStr idleRaw) = .ok d) :
    ∃ s tr,
      get_sample (mkOkEnv title pidRaw name ssRaw idleRaw) i = (.ok s, tr) ∧
      (s.screensaver_active = false
        ↔ containsSubstr (trimStr ssRaw) "inactive" = true) ∧
      (s.screensaver_active = true
        ↔ containsSubstr (trimStr ssRaw) "inactive" = false) := by
  refine ⟨_, _,
    get_sample_mkOkEnv title pidRaw name ssRaw idleRaw i pid d hp hd, ?_, ?_⟩
  · simp
  · simp

/-- Witness for C5: the text `screensaver is inactive` (with trailing
newline) gives `screensaver_active = false`; the empty text gives
`screensaver_active = true`. -/
theorem claim5_screensaver_substring_inst :
    (∃ s tr,
      get_sample (mkOkEnv "T" "42" "bash" "screensaver is inactive\n" "0") 5
          = (.ok s, tr) ∧
      (s.screensaver_active = false
        ↔ containsSubstr (trimStr "screensaver is inactive\n") "inactive"
            = true) ∧
      (s.screensaver_active = true
        ↔ containsSubstr (trimStr "screensaver is inactive\n") "inactive"
            = false)) ∧
    (∃ s tr,
      get_sample (mkOkEnv "T" "42" "bash" "" "0") 5 = (.ok s, tr) ∧
      (s.screensaver_active = false
        ↔ containsSubstr (trimStr "") "inactive" = true) ∧
      (s.screensaver_active = true
        ↔ containsSubstr (trimStr "") "inactive" = false)) :=
  ⟨claim5_screensaver_substring "T" "42" "bash" "screensaver is inactive\n" "0"
      5 42 0 rfl rfl,
   claim5_screensaver_substring "T" "42" "bash" "" "0" 5 42 0 rfl rfl⟩

/-- C6: `get_sample` probes in the fixed order title, pid, process name,
screensaver, idle; the textual (trimmed) pid probe output is what reaches
the process-name probe; unparsable pid text fails with the distinct
`ParseInt` error; and the first failing step returns that step's error with
no later probe invoked and no sample. -/
theorem claim6_probe_order_shortcircuit (env : ProbeEnv) (i : Nat) :
    (∀ e, get_command_output env.windowTitle = .error e →
      get_sample env i = (.error e, [ .windowTitle])) ∧
    (∀ t e, get_command_output env.windowTitle = .ok t →
      get_command_output env.windowPid = .error e →
      get_sample env i = (.error e, [ .windowTitle, .windowPid])) ∧
    (∀ t p k, get_command_output env.windowTitle = .ok t →
      get_command_output env.windowPid = .ok p →
      parseU32 p = .error k →
      get_sample env i
        = (.error (.parseIntError k), [ .windowTitle, .windowPid])) ∧
    (∀ t p pid e, get_command_output env.windowTitle = .ok t →
      get_command_output env.windowPid = .ok p →
      parseU32 p = .ok pid →
      get_command_output (env.processName p) = .error e →
      get_sample env i
        = (.error e, [ .windowTitle, .windowPid, .processName p])) ∧
    (∀ t p pid n e, get_command_output env.windowTitle = .ok t →
      get_command_output env.windowPid = .ok p →
      parseU32 p = .ok pid →
      get_command_output (env.processName p) = .ok n →
      get_command_output env.screensaver = .error e →
      get_sample env i
        = (.error e,
           [ .windowTitle, .windowPid, .processName p, .screensaver])) ∧
    (∀ t p pid n ss e, get_command_output env.windowTitle = .ok t →
      get_command_output env.windowPid = .ok p →
      parseU32 p = .ok pid →
      get_command_output (env.processName p) = .ok n →
      get_command_output env.screensaver = .ok ss →
      get_command_output env.xprintidle = .error e →
      get_sample env i
        = (.error e,
           [ .windowTitle, .windowPid, .processName p, .screensaver,
             .xprintidle])) ∧
    (∀ t p pid n ss ix k, get_command_output env.windowTitle = .ok t →
      get_command_output env.windowPid = .ok p →
      parseU32 p = .ok pid →
      get_command_output (env.processName p) = .ok n →
      get_command_output env.screensaver = .ok ss →
      get_command_output env.xprintidle = .ok ix →
      parseU128 ix = .error k →
      get_sample env i
        = (.error (.parseIntError k),
           [ .windowTitle, .windowPid, .processName p, .screensaver,
             .xprintidle])) ∧
    (∀ t p pid n ss ix d, get_command_output env.windowTitle = .ok t →
      get_command_output env.windowPid = .ok p →
      parseU32 p = .ok pid →
      get_command_output (env.processName p) = .ok n →
      get_command_output env.screensaver = .ok ss →
      get_command_output env.xprintidle = .ok ix →
      parseU128 ix = .ok d →
      get_sample env i
        = (.ok { window_title := t
                 pid := pid
                 process_name := n
                 screensaver_active := !(containsSubstr ss "inactive")
                 idle := decide (d > intervalMillis i) },
           [ .windowTitle, .windowPid, .processName p, .screensaver,
             .xprintidle])) := by
  refine ⟨?_, ?_, ?_, ?_, ?_, ?_, ?_, ?_⟩
  · intro e h1
    simp [get_sample, h1]
  · intro t e h1 h2
    simp [get_sample, h1, h2]
  · intro t p k h1 h2 h3
    simp [get_sample, h1, h2, h3]
  · intro t p pid e h1 h2 h3 h4
    simp [get_sample, h1, h2, h3, h4]
  · intro t p pid n e h1 h2 h3 h4 h5
    simp [get_sample, h1, h2, h3, h4, h5]
  · intro t p pid n ss e h1 h2 h3 h4 h5 h6
    simp [get_sample, h1, h2, h3, h4, h5, h6]
  · intro t p pid n ss ix k h1 h2 h3 h4 h5 h6 h7
    simp [get_sample, h1, h2, h3, h4, h5, h6, h7]
  · intro t p pid n ss ix d h1 h2 h3 h4 h5 h6 h7
    simp [get_sample, h1, h2, h3, h4, h5, h6, h7]

/-- Witness for C6 on `envPidText`: the pid probe output ` 007 ` is
trimmed to `007`, parses to 7, and the process-name probe receives the
textual `007` (not the re-stringified `7`); its failure aborts the attempt
before the screensaver and idle probes. -/
theorem claim6_probe_order_shortcircuit_inst :
    get_sample envPidText 5
      = (.error (SampleError.ioError "boom"),
         [ .windowTitle, .windowPid, .processName "007"]) :=
  (claim6_probe_order_shortcircuit envPidText 5).2.2.2.1 "Title" "007" 7
    (SampleError.ioError "boom") rfl rfl rfl rfl

/-- The `database_path` block never changes `sample_interval`. -/
theorem applyDatabasePath_interval (t : List (String × TomlValue))
    (c c2 : Config) (h : applyDatabasePath t c = .ok c2) :
    c2.sample_interval = c.sample_interval := by
  unfold applyDatabasePath at h
  split at h
  · simp at h
    subst h
    rfl
  · split at h
    · simp at h
      subst h
      rfl
    · simp at h

/-- The `database_type` block never changes `sample_interval`. -/
theorem applyDatabaseType_interval (t : List (String × TomlValue))
    (c c2 : Config) (h : applyDatabaseType t c = .ok c2) :
    c2.sample_interval = c.sample_interval := by
  unfold applyDatabaseType at h
  split at h
  · simp at h
    subst h
    rfl
  · split at h
    · simp at h
      subst h
      rfl
    · simp at h

/-- When the config file parses and the `sample_interval` block yields
`c1`, any successful load returns `c1`'s interval. -/
theorem load_config_interval_stable (env : LoadEnv) (home cdir : String)
    (t : List (String × TomlValue)) (c1 : Config)
    (hh : env.homeDir = some home) (hc : env.configDir = some cdir)
    (hf : env.file = FileState.parsed t)
    (h1 : applySampleInterval t (Config.defaultFor home) = .ok c1) :
    ∀ r w, load_config env = some (.ok r, w) →
      r.sample_interval = c1.sample_interval := by
  intro r w hload
  simp only [load_config, hh, hc, hf, h1] at hload
  split at hload
  · simp at hload
  · rename_i c2 h2
    split at hload
    · simp at hload
    · rename_i c3 h3
      simp at hload
      obtain ⟨hr, _⟩ := hload
      subst hr
      rw [applyDatabaseType_interval t c2 c3 h3,
        applyDatabasePath_interval t c1 c2 h2]

/-- C9 counterexample: a config file supplying `sample_interval = 0` is
accepted — loading succeeds with interval `0`, which is not positive, so
"sample_interval is a positive integer" fails on the code. -/
theorem claim9_zero_interval_accepted :
    load_config envIntervalZero
      = some (.ok { database_path := "/home/u/.timetrackd.db"
                    database_type := DatabaseType.sqlite
                    sample_interval := 0 }, []) ∧
    ¬ 0 < (0 : Nat) := by
  constructor
  · rfl
  · decide

/-- C9 (amended): loading fails with the `ParseError` whenever the config
file supplies a `sample_interval` that is a negative integer or not an
integer; when the key is absent a successful load has interval 5; when a
non-negative integer `j` is supplied a successful load has interval `j`. -/
theorem claim9_interval_validation (env : LoadEnv) (home cdir : String)
    (t : List (String × TomlValue))
    (hh : env.homeDir = some home) (hc : env.configDir = some cdir)
    (hf : env.file = FileState.parsed t) :
    (∀ j : Int, tomlGet t "sample_interval" = some (TomlValue.integer j) →
      j < 0 →
      load_config env
        = some (.error
            (.parseError "sample_interval has to be a positive integer"),
          [])) ∧
    (∀ v, tomlGet t "sample_interval" = some v →
      (∀ j : Int, v ≠ TomlValue.integer j) →
      load_config env
        = some (.error
            (.parseError "sample_interval has to be a positive integer"),
          [])) ∧
    (tomlGet t "sample_interval" = none →
      ∀ r w, load_config env = some (.ok r, w) → r.sample_interval = 5) ∧
    (∀ j : Int, tomlGet t "sample_interval" = some (TomlValue.integer j) →
      0 ≤ j →
      ∀ r w, load_config env = some (.ok r, w) →
        r.sample_interval = j.toNat) := by
  refine ⟨?_, ?_, ?_, ?_⟩
  · intro j hkey hneg
    simp [load_config, hh, hc, hf, applySampleInterval, hkey, parse_u64, hneg]
  · intro v hkey hnotint
    rcases v with j | sv | _ | b | _ | _ | _
    · exact absurd rfl (hnotint j)
    all_goals
      simp [load_config, hh, hc, hf, applySampleInterval, hkey, parse_u64]
  · intro hnone r w hload
    have h1 : applySampleInterval t (Config.defaultFor home)
        = .ok (Config.defaultFor home) := by
      simp [applySampleInterval, hnone]
    have hstable :=
      load_config_interval_stable env home cdir t _ hh hc hf h1 r w hload
    simpa [Config.defaultFor] using hstable
  · intro j hkey hj r w hload
    have h1 : applySampleInterval t (Config.defaultFor home)
        = .ok { Config.defaultFor home with sample_interval := j.toNat } := by
      simp [applySampleInterval, hkey, parse_u64, not_lt.mpr hj]
    have hstable :=
      load_config_interval_stable env home cdir t _ hh hc hf h1 r w hload
    simpa using hstable

/-- Witness for the amended C9: `sample_interval = -3` is a fatal
`ParseError`. -/
theorem claim9_interval_validation_inst :
    load_config envIntervalNeg
      = some (.error
          (.parseError "sample_interval has to be a positive integer"),
        []) :=
  (claim9_interval_validation envIntervalNeg "/home/u" "/home/u/.config"
      [ ("sample_interval", TomlValue.integer (-3))] rfl rfl rfl).1
    (-3) rfl (by decide)

/-- C10: when no config file exists at the resolved path, `load_config`
succeeds with the built-in defaults (interval 5, sqlite, database file
under the home directory) and only warns on stderr. -/
theorem claim10_missing_file_defaults (home cdir : String) :
    load_config
        { homeDir := some home, configDir := some cdir
          file := FileState.absent }
      = some (.ok { database_path := pathJoin home ".timetrackd.db"
                    database_type := DatabaseType.sqlite
                    sample_interval := 5 },
              [ "Could not load config file \x27"
                ++ pathJoin cdir "timetrackd.toml" ++ "\x27"]) := by
  rfl

end Timetrackd
